import Mathlib

/-!
Shallow embedding of the ClickDeal API server (src/server.js): the JSON value
model, the bearer-auth middleware, the variant-id normalization, and the four
request handlers, together with theorems settling the specification claims.
-/

namespace ClickDeal

/-- Runtime number of the JavaScript value model.  The server never performs
arithmetic on request numbers (they are only type-tested and passed through),
so integers plus the distinguished NaN value suffice. -/
inductive JSNumber where
  | nan
  | finite (i : Int)
deriving DecidableEq, Repr

/-- JSON-parsed JavaScript value, plus `undefined` for absent object
properties (destructuring a missing field yields `undefined`). -/
inductive JSValue where
  | undefined
  | null
  | bool (b : Bool)
  | num (n : JSNumber)
  | str (s : String)
  | arr (elems : List JSValue)
  | obj (fields : List (String × JSValue))

/-- JavaScript truthiness for the values of the model: `undefined`, `null`,
`false`, `0`, `NaN` and the empty string are falsy; arrays and objects are
always truthy. -/
def truthy : JSValue → Bool
  | .undefined => false
  | .null => false
  | .bool b => b
  | .num .nan => false
  | .num (.finite i) => i != 0
  | .str s => s != ""
  | .arr _ => true
  | .obj _ => true

/-- JavaScript `typeof v === "number"`. -/
def isNumberType : JSValue → Bool
  | .num _ => true
  | _ => false

/-- Predicate used by the spec's wording of the order validation: the value is
a non-empty string. -/
def isNonEmptyString : JSValue → Bool
  | .str s => s != ""
  | _ => false

/-- JavaScript `s.startsWith(pre)`, modelled on the character list. -/
def jsStartsWith (s pre : String) : Bool :=
  pre.data.isPrefixOf s.data

/-- JavaScript `s.slice(n)` for a non-negative index: drop the first `n`
characters. -/
def jsSlice (s : String) (n : Nat) : String :=
  String.mk (s.data.drop n)

theorem jsdata_append (s t : String) : (s ++ t).data = s.data ++ t.data := by
  obtain ⟨a⟩ := s
  obtain ⟨b⟩ := t
  rfl

theorem isPrefixOf_append_left (l r : List Char) : l.isPrefixOf (l ++ r) = true := by
  simp

theorem isPrefixOf_trans_append (p l r : List Char) (h : p.isPrefixOf l = true) :
    p.isPrefixOf (l ++ r) = true := by
  simp at h ⊢
  exact h.trans (List.prefix_append l r)

/-! ## Auth middleware (`requireAuth`, src/server.js lines 45-52) -/

/-- Bearer credential extraction of `requireAuth`:
`const auth = req.headers.authorization || ""`,
`const token = auth.startsWith("Bearer ") ? auth.slice(7) : ""`.
The header is `none` when absent. -/
def bearerToken (authorizationHeader : Option String) : String :=
  let auth := authorizationHeader.getD ""
  if jsStartsWith auth "Bearer " then jsSlice auth 7 else ""

/-- Outcome of an Express middleware: either a terminating JSON response or
falling through to the handler via `next()`. -/
inductive AuthResult where
  | reject (status : Nat) (body : JSValue)
  | next

/-- The `requireAuth` middleware:
`if (!API_KEY || token !== API_KEY) return res.status(401).json({error: "Unauthorized"}); next();`. -/
def requireAuth (apiKey : String) (authorizationHeader : Option String) : AuthResult :=
  let token := bearerToken authorizationHeader
  if apiKey = "" ∨ token ≠ apiKey then
    .reject 401 (.obj [("error", .str "Unauthorized")])
  else
    .next

/-! ## Variant-id normalization and the stock handler (lines 174-202) -/

/-- Normalization in `GET /api/stock/:variantId`:
`variantId.startsWith("gid://") ? variantId : "gid://shopify/ProductVariant/" + variantId`.
The result is the `$id` variable of the upstream Admin GraphQL query. -/
def stockGid (variantId : String) : String :=
  if jsStartsWith variantId "gid://" then variantId
  else "gid://shopify/ProductVariant/" ++ variantId

/-- Upstream `inventoryItem { tracked }` selection; `tracked` is `none` when
the upstream omits it (null). -/
structure InventoryItem where
  tracked : Option Bool
deriving DecidableEq, Repr

/-- Upstream `productVariant { id inventoryQuantity inventoryItem { tracked } }`
data; the whole node is `Option`al at the call site (null when no variant
matches). -/
structure ProductVariantNode where
  id : String
  inventoryQuantity : Option Int
  inventoryItem : Option InventoryItem
deriving DecidableEq, Repr

/-- Response of the stock handler after a successful upstream call. -/
inductive StockResponse where
  | notFound404
  | ok200 (variantId : String) (quantity : Option Int) (tracked : Bool)
deriving DecidableEq, Repr

/-- HTTP status of a stock response. -/
def StockResponse.status : StockResponse → Nat
  | .notFound404 => 404
  | .ok200 _ _ _ => 200

/-- JSON body of a stock response: `{error: "Variant not found"}` for 404,
`{variantId, quantity, tracked}` for 200 (a null quantity serializes as
JSON null). -/
def StockResponse.body : StockResponse → JSValue
  | .notFound404 => .obj [("error", .str "Variant not found")]
  | .ok200 vid q t =>
      .obj [("variantId", .str vid),
            ("quantity", match q with | some i => .num (.finite i) | none => .null),
            ("tracked", .bool t)]

/-- The `tracked` field computation `v.inventoryItem?.tracked ?? true`:
a missing inventory item or a missing tracked flag both default to `true`. -/
def trackedValue (v : ProductVariantNode) : Bool :=
  match v.inventoryItem with
  | none => true
  | some it => it.tracked.getD true

/-- Stock handler response shaping after the upstream call returned
`data.productVariant` (`none` models GraphQL null):
`if (!v) return res.status(404)...; res.json({variantId: v.id, quantity: v.inventoryQuantity, tracked: v.inventoryItem?.tracked ?? true})`. -/
def handlerStock (productVariant : Option ProductVariantNode) : StockResponse :=
  match productVariant with
  | none => .notFound404
  | some v => .ok200 v.id v.inventoryQuantity (trackedValue v)

theorem mk_data (s : String) : String.mk s.data = s := by
  obtain ⟨l⟩ := s
  rfl

theorem jsStartsWith_append (pre rest : String) : jsStartsWith (pre ++ rest) pre = true := by
  unfold jsStartsWith
  rw [jsdata_append]
  exact isPrefixOf_append_left _ _

theorem jsSlice_bearer (rest : String) : jsSlice ("Bearer " ++ rest) 7 = rest := by
  unfold jsSlice
  rw [jsdata_append]
  rw [List.drop_left' (show ("Bearer " : String).data.length = 7 by decide)]

theorem digits_not_gid_prefixed (n : String) (h : n.data.all Char.isDigit = true) :
    jsStartsWith n "gid://" = false := by
  unfold jsStartsWith
  cases hd : n.data with
  | nil => rfl
  | cons c cs =>
    rw [hd] at h
    simp [List.all_cons] at h
    show List.isPrefixOf ('g' :: "id://".data) (c :: cs) = false
    simp [List.isPrefixOf]
    intro hc
    rw [← hc] at h
    exact absurd h.1 (by decide)

/-- Claim C1: the auth middleware extracts the bearer credential as the text
following the fixed "Bearer " prefix of the Authorization header (empty string
if the header is absent or does not start with that prefix), and responds 401
with body {error: "Unauthorized"} without invoking the handler if and only if
the configured secret is empty or the extracted credential differs from the
secret; otherwise the handler runs. -/
theorem requireAuth_spec (apiKey : String) (h : Option String) :
    (∀ rest, h = some ("Bearer " ++ rest) → bearerToken h = rest) ∧
    (h = none → bearerToken h = "") ∧
    (∀ a, h = some a → jsStartsWith a "Bearer " = false → bearerToken h = "") ∧
    (requireAuth apiKey h = .reject 401 (.obj [("error", .str "Unauthorized")]) ↔
      apiKey = "" ∨ bearerToken h ≠ apiKey) ∧
    (requireAuth apiKey h = .next ↔ ¬(apiKey = "" ∨ bearerToken h ≠ apiKey)) := by
  refine ⟨?_, ?_, ?_, ?_, ?_⟩
  · intro rest hrest
    subst hrest
    unfold bearerToken
    simp [Option.getD, jsStartsWith_append, jsSlice_bearer]
  · intro hnone
    subst hnone
    rfl
  · intro a ha hpre
    subst ha
    unfold bearerToken
    simp [Option.getD, hpre]
  · by_cases hc : apiKey = "" ∨ bearerToken h ≠ apiKey <;>
      simp [requireAuth, hc]
  · by_cases hc : apiKey = "" ∨ bearerToken h ≠ apiKey <;>
      simp [requireAuth, hc]

/-- Witness for C1: a wrong bearer credential is rejected with 401. -/
theorem requireAuth_spec_witness :
    requireAuth "secret" (some "Bearer nope") =
      .reject 401 (.obj [("error", .str "Unauthorized")]) :=
  ((requireAuth_spec "secret" (some "Bearer nope")).2.2.2.1).mpr (Or.inr (by decide))

/-- Claim C6: the variant-id normalization used by GET /api/stock/:variantId is
idempotent: for every bare numeric id n, the path parameters n and
"gid://shopify/ProductVariant/" + n produce the same upstream query target, and
normalizing an identifier already in qualified form leaves it unchanged. -/
theorem stockGid_idempotent (n : String) (hdigits : n.data.all Char.isDigit = true) :
    stockGid n = stockGid ("gid://shopify/ProductVariant/" ++ n) ∧
    stockGid n = "gid://shopify/ProductVariant/" ++ n ∧
    (∀ q : String, jsStartsWith q "gid://" = true → stockGid q = q) := by
  have h1 : jsStartsWith n "gid://" = false := digits_not_gid_prefixed n hdigits
  have h2 : jsStartsWith ("gid://shopify/ProductVariant/" ++ n) "gid://" = true := by
    unfold jsStartsWith
    rw [jsdata_append]
    exact isPrefixOf_trans_append _ _ _ (by decide)
  refine ⟨?_, ?_, ?_⟩
  · simp [stockGid, h1, h2]
  · simp [stockGid, h1]
  · intro q hq
    simp [stockGid, hq]

/-- Witness for C6: the bare id "12345" and its qualified form map to the same
upstream query target. -/
theorem stockGid_idempotent_witness :
    ("12345" : String).data.all Char.isDigit = true ∧
    stockGid "12345" = stockGid ("gid://shopify/ProductVariant/" ++ "12345") :=
  ⟨by decide, (stockGid_idempotent "12345" (by decide)).1⟩

/-- Claim C10: the stock endpoint's normalization inspects only the "gid://"
prefix: every path parameter beginning with "gid://" is passed to the upstream
query unchanged (even non-ProductVariant forms), and every other parameter is
wrapped as "gid://shopify/ProductVariant/" + parameter regardless of whether it
is numeric. -/
theorem stockGid_prefix_only (p : String) :
    (jsStartsWith p "gid://" = true → stockGid p = p) ∧
    (jsStartsWith p "gid://" = false → stockGid p = "gid://shopify/ProductVariant/" ++ p) := by
  constructor <;> intro hp <;> simp [stockGid, hp]

/-- Witness for C10: a qualified non-ProductVariant id is passed through, and a
non-numeric bare string is wrapped. -/
theorem stockGid_prefix_only_witness :
    stockGid "gid://shopify/Product/9" = "gid://shopify/Product/9" ∧
    stockGid "abc" = "gid://shopify/ProductVariant/" ++ "abc" :=
  ⟨(stockGid_prefix_only "gid://shopify/Product/9").1 (by decide),
   (stockGid_prefix_only "abc").2 (by decide)⟩

/-- Claim C7: for every GET /api/stock/:variantId request whose upstream call
succeeds, the handler responds 404 when the upstream reports no matching
variant, and otherwise responds 200 with {variantId, quantity, tracked} where
tracked equals the upstream tracked flag when present and defaults to true when
the upstream omits it (either the inventory item or its tracked flag). -/
theorem handlerStock_spec (d : Option ProductVariantNode) :
    (d = none → handlerStock d = .notFound404 ∧ (handlerStock d).status = 404) ∧
    (∀ v, d = some v →
      handlerStock d = .ok200 v.id v.inventoryQuantity (trackedValue v) ∧
      (handlerStock d).status = 200 ∧
      (∀ it b, v.inventoryItem = some it → it.tracked = some b → trackedValue v = b) ∧
      (v.inventoryItem = none → trackedValue v = true) ∧
      (∀ it, v.inventoryItem = some it → it.tracked = none → trackedValue v = true)) := by
  refine ⟨?_, ?_⟩
  · intro hnone
    subst hnone
    exact ⟨rfl, rfl⟩
  · intro v hv
    subst hv
    refine ⟨rfl, rfl, ?_, ?_, ?_⟩
    · intro it b hit hb
      simp [trackedValue, hit, hb]
    · intro hit
      simp [trackedValue, hit]
    · intro it hit hb
      simp [trackedValue, hit, hb]

/-- Witness for C7: a variant whose inventory item omits the tracked flag is
reported with tracked = true. -/
theorem handlerStock_spec_witness :
    handlerStock (some ⟨"gid://shopify/ProductVariant/7", some 3, some ⟨none⟩⟩) =
      .ok200 "gid://shopify/ProductVariant/7" (some 3) true :=
  ((handlerStock_spec (some ⟨"gid://shopify/ProductVariant/7", some 3, some ⟨none⟩⟩)).2 _ rfl).1

/-! ## GET /api/products (REST listing, lines 95-129) -/

/-- String conversion `String(v.id)` for the numeric REST variant id. -/
def jsNumToString : JSNumber → String
  | .nan => "NaN"
  | .finite i => toString i

/-- Variant object of the upstream REST `products.json` payload.
`admin_graphql_api_id` is a string when present (`none` models an absent or
null field); `id` is the numeric legacy id; `title`, `price` and
`inventory_quantity` are copied through verbatim, so they stay raw values. -/
structure RestVariant where
  admin_graphql_api_id : Option String
  id : JSNumber
  title : JSValue
  price : JSValue
  inventory_quantity : JSValue

/-- Product object of the upstream REST payload; `variants` is `none` when the
field is absent (`p.variants || []`). -/
structure RestProduct where
  title : JSValue
  handle : JSValue
  variants : Option (List RestVariant)

/-- Payload of a successful REST call; `products` is `none` when absent
(`data.products || []`). -/
structure RestProductsData where
  products : Option (List RestProduct)

/-- Result of the REST fetch visible to the handler: `notOk` carries the raw
body text read when `r.ok` is false; `ok` carries the parsed JSON. -/
inductive RestFetchResult where
  | notOk (bodyText : String)
  | ok (data : RestProductsData)

/-- Projected variant of the handler's response:
`{id: v.admin_graphql_api_id || String(v.id), title, price, inventory_quantity}`. -/
structure ProjectedVariant where
  id : String
  title : JSValue
  price : JSValue
  inventory_quantity : JSValue

/-- Projected product of the handler's response. -/
structure ProjectedProduct where
  title : JSValue
  handle : JSValue
  variants : List ProjectedVariant

/-- The id projection `v.admin_graphql_api_id || String(v.id)`: the `||`
falls through to the stringified numeric id when the field is absent, null, or
the empty string (falsy). -/
def projectVariantId (v : RestVariant) : String :=
  match v.admin_graphql_api_id with
  | some s => if s = "" then jsNumToString v.id else s
  | none => jsNumToString v.id

/-- Variant projection of the products handler. -/
def projectVariant (v : RestVariant) : ProjectedVariant :=
  { id := projectVariantId v
    title := v.title
    price := v.price
    inventory_quantity := v.inventory_quantity }

/-- Product projection of the products handler, including `p.variants || []`. -/
def projectProduct (p : RestProduct) : ProjectedProduct :=
  { title := p.title
    handle := p.handle
    variants := (p.variants.getD []).map projectVariant }

/-- Response of the products handler (the catch branch for thrown transport
errors is outside this success-path model). `err502` renders as
`{error, detail}`, `ok200` as `{count, products}`. -/
inductive ProductsResponse where
  | err502 (error detail : String)
  | ok200 (count : Nat) (products : List ProjectedProduct)

/-- HTTP status of a products response. -/
def ProductsResponse.status : ProductsResponse → Nat
  | .err502 _ _ => 502
  | .ok200 _ _ => 200

/-- The products handler after the REST fetch resolved:
`if (!r.ok) return res.status(502).json({error: "Shopify error", detail: text});`
then map `data.products || []` through the projection and respond
`{count: products.length, products}`. -/
def handlerProducts (r : RestFetchResult) : ProductsResponse :=
  match r with
  | .notOk text => .err502 "Shopify error" text
  | .ok data =>
      let products := (data.products.getD []).map projectProduct
      .ok200 products.length products

/-- Counterexample to claim C5: with a variant whose `admin_graphql_api_id` is
absent, the projected identifier is the bare decimal string "123", which is not
in qualified (gid://) form, so not every variant identifier in a successful
response is qualified. -/
theorem handlerProducts_unqualified_id :
    ((handlerProducts (.ok ⟨some [⟨.str "T", .str "h",
        some [⟨none, .finite 123, .str "t", .str "9.99", .num (.finite 5)⟩]⟩]⟩)) =
      .ok200 1 [⟨.str "T", .str "h", [⟨"123", .str "t", .str "9.99", .num (.finite 5)⟩]⟩]) ∧
    jsStartsWith "123" "gid://" = false :=
  ⟨rfl, by decide⟩

/-- Claim C5, amended: GET /api/products responds 502 with
{error: "Shopify error", detail: raw body text} when the upstream REST call
returns a non-success status; on success it responds 200 with {count, products}
where count equals the length of the products array and each product is
projected with variant identifier equal to the upstream admin_graphql_api_id
when that is a non-empty string and otherwise the decimal string of the numeric
id (not necessarily qualified), copying title, price and inventory_quantity
through verbatim. -/
theorem handlerProducts_spec (r : RestFetchResult) :
    (∀ text, r = .notOk text →
      handlerProducts r = .err502 "Shopify error" text ∧ (handlerProducts r).status = 502) ∧
    (∀ data, r = .ok data →
      handlerProducts r =
        .ok200 ((data.products.getD []).map projectProduct).length
          ((data.products.getD []).map projectProduct) ∧
      (handlerProducts r).status = 200 ∧
      (∀ c ps, handlerProducts r = .ok200 c ps → c = ps.length)) ∧
    (∀ v : RestVariant,
      (projectVariant v).title = v.title ∧
      (projectVariant v).price = v.price ∧
      (projectVariant v).inventory_quantity = v.inventory_quantity ∧
      (∀ s, v.admin_graphql_api_id = some s → s ≠ "" → (projectVariant v).id = s) ∧
      (v.admin_graphql_api_id = none → (projectVariant v).id = jsNumToString v.id) ∧
      (v.admin_graphql_api_id = some "" → (projectVariant v).id = jsNumToString v.id)) := by
  refine ⟨?_, ?_, ?_⟩
  · intro text ht
    subst ht
    exact ⟨rfl, rfl⟩
  · intro data hd
    subst hd
    refine ⟨rfl, rfl, ?_⟩
    intro c ps heq
    cases heq
    rfl
  · intro v
    refine ⟨rfl, rfl, rfl, ?_, ?_, ?_⟩
    · intro s hs hne
      simp [projectVariant, projectVariantId, hs, hne]
    · intro hs
      simp [projectVariant, projectVariantId, hs]
    · intro hs
      simp [projectVariant, projectVariantId, hs]

/-- Witness for the amended C5: a failed upstream REST call yields the 502
response carrying the raw body text. -/
theorem handlerProducts_spec_witness :
    handlerProducts (.notOk "boom") = .err502 "Shopify error" "boom" :=
  (((handlerProducts_spec (.notOk "boom")).1) "boom" rfl).1

/-! ## POST /api/orders (lines 208-297) -/

/-- Destructured request body
`const { name, phone, address, city, productHandle, quantity, variantId } = req.body || {}`;
a missing property destructures to `undefined`. -/
structure OrderBody where
  name : JSValue
  phone : JSValue
  address : JSValue
  city : JSValue
  productHandle : JSValue
  quantity : JSValue
  variantId : JSValue

/-- Validation gate of the handler, as the code performs it:
`if (!name || !phone || !address || !city || !productHandle || typeof quantity !== "number")`. -/
def ordersValidationFails (b : OrderBody) : Bool :=
  !truthy b.name || !truthy b.phone || !truthy b.address || !truthy b.city ||
    !truthy b.productHandle || !isNumberType b.quantity

/-- Validation as the specification words it: name, phone, address, city and
productHandle must each be a non-empty string, and quantity must be of number
type.  Used only to compare the spec's claim against the code's gate. -/
def specOrderValidationFails (b : OrderBody) : Bool :=
  !isNonEmptyString b.name || !isNonEmptyString b.phone || !isNonEmptyString b.address ||
    !isNonEmptyString b.city || !isNonEmptyString b.productHandle || !isNumberType b.quantity

/-- Storefront variant node `{ id title price { amount currencyCode } }`; only
the id is consumed by the handler. -/
structure StorefrontVariant where
  id : String
deriving DecidableEq, Repr

/-- Storefront product `{ title variants(first: 1) { nodes ... } }`. -/
structure StorefrontProduct where
  title : String
  variantNodes : List StorefrontVariant
deriving DecidableEq, Repr

/-- An entry of the draft-order mutation's `userErrors { field message }`. -/
structure UserError where
  field : String
  message : String
deriving DecidableEq, Repr

/-- The mutation's `draftOrder { id invoiceUrl name }` selection. -/
structure DraftOrder where
  id : String
  invoiceUrl : String
  name : String
deriving DecidableEq, Repr

/-- The `draftOrderCreate` payload: `draftOrder` is null on upstream validation
failure, and `userErrors` may be absent (both read through `?.`). -/
structure DraftOrderCreatePayload where
  draftOrder : Option DraftOrder
  userErrors : Option (List UserError)
deriving DecidableEq, Repr

/-- Upstream responses the handler would observe on its success paths:
`storefrontProduct` is `data.product` of the storefront lookup (null → none),
`draftOrderCreate` is `draftResp?.draftOrderCreate` of the admin mutation.
Thrown transport or GraphQL-array errors land in the catch branch and are
outside this success-path model. -/
structure UpstreamEnv where
  storefrontProduct : Option StorefrontProduct
  draftOrderCreate : Option DraftOrderCreatePayload

/-- WhatsApp configuration derived at startup: `WA_TOKEN`, `WA_PHONE_ID` and
the trimmed, filtered `WA_RECIPIENTS` list. -/
structure WAConfig where
  waToken : String
  waPhoneId : String
  waRecipients : List String

/-- Shipping address of the draft-order input, built from the body fields. -/
structure ShippingAddress where
  address1 : JSValue
  city : JSValue
  firstName : String
  lastName : String
  phone : JSValue

/-- One line item `{ variantId: chosenVariantId, quantity }`; both fields are
passed through exactly as they stand in the handler at that point. -/
structure LineItem where
  variantId : JSValue
  quantity : JSValue

/-- The `input` object of the `draftOrderCreate` mutation. -/
structure DraftOrderInput where
  lineItems : List LineItem
  shippingAddress : ShippingAddress
  note : String
  tags : List String

/-- Construction of the mutation input.  `name.split(" ")` is a string method:
for a non-string `name` the property access yields no function and the
expression throws a TypeError (returning `none` here), which the handler's
catch turns into a 500 — before the admin call is made.  For a string,
`firstName` is `name.split(" ")[0] || name` and `lastName` is
`name.split(" ").slice(1).join(" ") || "Customer"`. -/
def buildDraftInput (b : OrderBody) (chosenVariantId : JSValue) : Option DraftOrderInput :=
  match b.name with
  | .str nm =>
      let parts := nm.splitOn " "
      let p0 := parts.headD ""
      let rest := String.intercalate " " (parts.drop 1)
      some
        { lineItems := [{ variantId := chosenVariantId, quantity := b.quantity }]
          shippingAddress :=
            { address1 := b.address
              city := b.city
              firstName := if p0 = "" then nm else p0
              lastName := if rest = "" then "Customer" else rest
              phone := b.phone }
          note := "Created by ClickDeal GPT"
          tags := ["gpt", "clickdeal-assistant"] }
  | _ => none

/-- The per-recipient send loop: each iteration's failure is swallowed by its
own try/catch, so the loop always advances to the next recipient.  The result
records each attempted recipient with its send outcome. -/
def notifyLoop (sendOk : String → Bool) : List String → List (String × Bool)
  | [] => []
  | r :: rs => (r, sendOk r) :: notifyLoop sendOk rs

/-- The notify step guard
`if (WA_TOKEN && WA_PHONE_ID && WA_RECIPIENTS.length > 0)`: when any part of
the configuration is empty the loop body is skipped entirely. -/
def notifyStep (cfg : WAConfig) (sendOk : String → Bool) : List (String × Bool) :=
  if cfg.waToken ≠ "" ∧ cfg.waPhoneId ≠ "" ∧ 0 < cfg.waRecipients.length then
    notifyLoop sendOk cfg.waRecipients
  else
    []

/-- Responses of the orders handler on the modelled paths.  `typeError500` is
the catch branch entered when building the shipping address throws (non-string
`name`); its body carries the engine's stringified TypeError. -/
inductive OrdersResponse where
  | badRequest400
  | notFound404
  | typeError500
  | draftFailed500 (details : Option (List UserError))
  | created201 (draftOrderId : String) (invoiceUrl : String)
deriving DecidableEq, Repr

/-- HTTP status of an orders response. -/
def OrdersResponse.status : OrdersResponse → Nat
  | .badRequest400 => 400
  | .notFound404 => 404
  | .typeError500 => 500
  | .draftFailed500 _ => 500
  | .created201 _ _ => 201

/-- JSON body of an orders response (the `typeError500` body text is
engine-dependent, so only its `error` key is modelled). -/
def OrdersResponse.body : OrdersResponse → JSValue
  | .badRequest400 => .obj [("error", .str "Missing or invalid fields")]
  | .notFound404 => .obj [("error", .str "Product not found or has no variants")]
  | .typeError500 => .obj [("error", .str "TypeError")]
  | .draftFailed500 details =>
      .obj [("error", .str "Draft order failed"),
            ("details", match details with
              | none => .undefined
              | some es => .arr (es.map fun e =>
                  .obj [("field", .str e.field), ("message", .str e.message)]))]
  | .created201 i u =>
      .obj [("ok", .bool true), ("draftOrderId", .str i), ("invoiceUrl", .str u)]

/-- Everything observable about one run of the orders handler: whether the
storefront lookup ran, the admin mutation input if the mutation was issued,
the notification attempts, and the response. -/
structure OrdersTrace where
  storefrontCalled : Bool
  draftInput : Option DraftOrderInput
  notifySends : List (String × Bool)
  response : OrdersResponse

/-- Tail of the handler once `chosenVariantId` is resolved: build the mutation
input (throwing for a non-string name), issue `draftOrderCreate`, read
`draft = draftResp?.draftOrderCreate?.draftOrder` and
`errors = draftResp?.draftOrderCreate?.userErrors`, respond 500
`{error: "Draft order failed", details: errors}` when `draft` is null, and
otherwise run the notify step and respond 201. -/
def ordersAfterVariant (cfg : WAConfig) (sendOk : String → Bool) (env : UpstreamEnv)
    (b : OrderBody) (chosenVariantId : JSValue) (sfCalled : Bool) : OrdersTrace :=
  match buildDraftInput b chosenVariantId with
  | none =>
      { storefrontCalled := sfCalled, draftInput := none, notifySends := []
        response := .typeError500 }
  | some input =>
      let draft := env.draftOrderCreate.bind (·.draftOrder)
      let errors := env.draftOrderCreate.bind (·.userErrors)
      match draft with
      | none =>
          { storefrontCalled := sfCalled, draftInput := some input, notifySends := []
            response := .draftFailed500 errors }
      | some d =>
          { storefrontCalled := sfCalled, draftInput := some input
            notifySends := notifyStep cfg sendOk
            response := .created201 d.id d.invoiceUrl }

/-- The POST /api/orders handler: validation gate, variant resolution
(`let chosenVariantId = variantId; if (!chosenVariantId) { storefront lookup }`
with 404 when `!product || product.variants.nodes.length === 0`), then the
draft-order tail. -/
def handlerOrders (cfg : WAConfig) (sendOk : String → Bool) (env : UpstreamEnv)
    (b : OrderBody) : OrdersTrace :=
  if ordersValidationFails b then
    { storefrontCalled := false, draftInput := none, notifySends := []
      response := .badRequest400 }
  else if truthy b.variantId then
    ordersAfterVariant cfg sendOk env b b.variantId false
  else
    match env.storefrontProduct with
    | none =>
        { storefrontCalled := true, draftInput := none, notifySends := []
          response := .notFound404 }
    | some p =>
        match p.variantNodes with
        | [] =>
            { storefrontCalled := true, draftInput := none, notifySends := []
              response := .notFound404 }
        | v :: _ => ordersAfterVariant cfg sendOk env b (.str v.id) true

/-! ## Lemmas about the orders handler -/

theorem notifyLoop_map_fst (sendOk : String → Bool) (rs : List String) :
    (notifyLoop sendOk rs).map Prod.fst = rs := by
  induction rs with
  | nil => rfl
  | cons r rs ih => simp [notifyLoop, ih]

theorem notifyStep_skip (cfg : WAConfig) (sendOk : String → Bool)
    (h : cfg.waToken = "" ∨ cfg.waPhoneId = "" ∨ cfg.waRecipients = []) :
    notifyStep cfg sendOk = [] := by
  unfold notifyStep
  rw [if_neg]
  rintro ⟨h1, h2, h3⟩
  rcases h with h | h | h
  · exact h1 h
  · exact h2 h
  · rw [h] at h3
    simp at h3

theorem notifyStep_map_fst (cfg : WAConfig) (sendOk : String → Bool) :
    (notifyStep cfg sendOk).map Prod.fst =
      if cfg.waToken ≠ "" ∧ cfg.waPhoneId ≠ "" ∧ 0 < cfg.waRecipients.length
      then cfg.waRecipients else [] := by
  unfold notifyStep
  split
  · exact notifyLoop_map_fst _ _
  · rfl

theorem buildDraftInput_isSome (b : OrderBody) (cv : JSValue) (nm : String)
    (hname : b.name = .str nm) :
    ∃ inp, buildDraftInput b cv = some inp := by
  unfold buildDraftInput
  rw [hname]
  exact ⟨_, rfl⟩

theorem buildDraftInput_none (b : OrderBody) (cv : JSValue)
    (h : ∀ s, b.name ≠ .str s) :
    buildDraftInput b cv = none := by
  unfold buildDraftInput
  split
  next nm heq => exact absurd heq (h nm)
  next => rfl

theorem buildDraftInput_lineItems (b : OrderBody) (cv : JSValue) (inp : DraftOrderInput)
    (h : buildDraftInput b cv = some inp) :
    inp.lineItems = [{ variantId := cv, quantity := b.quantity }] := by
  unfold buildDraftInput at h
  split at h
  · cases h
    rfl
  · cases h

theorem ordersAfterVariant_storefrontCalled (cfg : WAConfig) (sendOk : String → Bool)
    (env : UpstreamEnv) (b : OrderBody) (cv : JSValue) (sf : Bool) :
    (ordersAfterVariant cfg sendOk env b cv sf).storefrontCalled = sf := by
  unfold ordersAfterVariant
  split
  · rfl
  · dsimp only
    split <;> rfl

theorem ordersAfterVariant_draftInput (cfg : WAConfig) (sendOk : String → Bool)
    (env : UpstreamEnv) (b : OrderBody) (cv : JSValue) (sf : Bool) :
    (ordersAfterVariant cfg sendOk env b cv sf).draftInput = buildDraftInput b cv := by
  unfold ordersAfterVariant
  split
  next heq => rw [heq]
  next inp heq =>
    dsimp only
    split <;> rw [heq]

theorem ordersAfterVariant_response_ne_400 (cfg : WAConfig) (sendOk : String → Bool)
    (env : UpstreamEnv) (b : OrderBody) (cv : JSValue) (sf : Bool) :
    (ordersAfterVariant cfg sendOk env b cv sf).response ≠ .badRequest400 := by
  unfold ordersAfterVariant
  split
  · simp
  · dsimp only
    split <;> simp

theorem ordersAfterVariant_typeError (cfg : WAConfig) (sendOk : String → Bool)
    (env : UpstreamEnv) (b : OrderBody) (cv : JSValue) (sf : Bool)
    (h : buildDraftInput b cv = none) :
    ordersAfterVariant cfg sendOk env b cv sf =
      { storefrontCalled := sf, draftInput := none, notifySends := []
        response := .typeError500 } := by
  unfold ordersAfterVariant
  rw [h]

theorem ordersAfterVariant_created (cfg : WAConfig) (sendOk : String → Bool)
    (env : UpstreamEnv) (b : OrderBody) (cv : JSValue) (sf : Bool)
    (inp : DraftOrderInput) (d : DraftOrder) (ue : Option (List UserError))
    (hinp : buildDraftInput b cv = some inp)
    (henv : env.draftOrderCreate = some ⟨some d, ue⟩) :
    ordersAfterVariant cfg sendOk env b cv sf =
      { storefrontCalled := sf, draftInput := some inp
        notifySends := notifyStep cfg sendOk
        response := .created201 d.id d.invoiceUrl } := by
  unfold ordersAfterVariant
  rw [hinp]
  simp [henv]

theorem ordersAfterVariant_draftFailed (cfg : WAConfig) (sendOk : String → Bool)
    (env : UpstreamEnv) (b : OrderBody) (cv : JSValue) (sf : Bool)
    (inp : DraftOrderInput) (ue : Option (List UserError))
    (hinp : buildDraftInput b cv = some inp)
    (henv : env.draftOrderCreate = some ⟨none, ue⟩) :
    ordersAfterVariant cfg sendOk env b cv sf =
      { storefrontCalled := sf, draftInput := some inp, notifySends := []
        response := .draftFailed500 ue } := by
  unfold ordersAfterVariant
  rw [hinp]
  simp [henv]

theorem handlerOrders_validation_fails (cfg : WAConfig) (sendOk : String → Bool)
    (env : UpstreamEnv) (b : OrderBody) (h : ordersValidationFails b = true) :
    handlerOrders cfg sendOk env b =
      { storefrontCalled := false, draftInput := none, notifySends := []
        response := .badRequest400 } := by
  unfold handlerOrders
  rw [if_pos h]

theorem handlerOrders_variant_given (cfg : WAConfig) (sendOk : String → Bool)
    (env : UpstreamEnv) (b : OrderBody)
    (hval : ordersValidationFails b = false) (hvar : truthy b.variantId = true) :
    handlerOrders cfg sendOk env b = ordersAfterVariant cfg sendOk env b b.variantId false := by
  unfold handlerOrders
  simp [hval, hvar]

theorem handlerOrders_response_ne_400 (cfg : WAConfig) (sendOk : String → Bool)
    (env : UpstreamEnv) (b : OrderBody) (h : ordersValidationFails b = false) :
    (handlerOrders cfg sendOk env b).response ≠ .badRequest400 := by
  unfold handlerOrders
  simp only [h, Bool.false_eq_true, if_false]
  split
  · exact ordersAfterVariant_response_ne_400 cfg sendOk env b b.variantId false
  · split
    · simp
    · split
      · simp
      · exact ordersAfterVariant_response_ne_400 cfg sendOk env b _ true

/-! ## Claims about POST /api/orders -/

/-- Counterexample to claim C3: a body whose `name` is the number 5 fails the
spec's validation (name is not a non-empty string), yet the handler does not
respond 400 — it proceeds to the storefront upstream call (and, here, a 404).
So "400 iff validation-as-non-empty-strings fails" is false on the code. -/
theorem ordersValidation_not_string_typed :
    specOrderValidationFails
      ⟨.num (.finite 5), .str "p", .str "a", .str "c", .str "h", .num (.finite 1), .undefined⟩ = true ∧
    (handlerOrders ⟨"", "", []⟩ (fun _ => false) ⟨none, none⟩
      ⟨.num (.finite 5), .str "p", .str "a", .str "c", .str "h", .num (.finite 1), .undefined⟩).response ≠
      .badRequest400 ∧
    (handlerOrders ⟨"", "", []⟩ (fun _ => false) ⟨none, none⟩
      ⟨.num (.finite 5), .str "p", .str "a", .str "c", .str "h", .num (.finite 1), .undefined⟩).storefrontCalled =
      true :=
  ⟨by decide, by decide, rfl⟩

/-- Claim C3, amended: the handler responds 400 with body
{error: "Missing or invalid fields"} and makes no upstream call if and only if
the code's validation fails, where that validation requires name, phone,
address, city and productHandle to each be truthy and quantity to be of number
type (truthiness, not string-typedness, is what is checked). -/
theorem handlerOrders_validation_gate (cfg : WAConfig) (sendOk : String → Bool)
    (env : UpstreamEnv) (b : OrderBody) :
    (((handlerOrders cfg sendOk env b).response = .badRequest400 ∧
      (handlerOrders cfg sendOk env b).storefrontCalled = false ∧
      (handlerOrders cfg sendOk env b).draftInput = none ∧
      (handlerOrders cfg sendOk env b).notifySends = []) ↔
      ordersValidationFails b = true) ∧
    OrdersResponse.status .badRequest400 = 400 ∧
    OrdersResponse.body .badRequest400 = .obj [("error", .str "Missing or invalid fields")] := by
  refine ⟨⟨?_, ?_⟩, rfl, rfl⟩
  · rintro ⟨h400, -, -, -⟩
    by_cases hv : ordersValidationFails b = true
    · exact hv
    · exact absurd h400
        (handlerOrders_response_ne_400 cfg sendOk env b (Bool.not_eq_true _ ▸ hv))
  · intro hv
    rw [handlerOrders_validation_fails cfg sendOk env b hv]
    exact ⟨rfl, rfl, rfl, rfl⟩

/-- Witness for the amended C3: a body with a missing name is rejected with
400 before any upstream call. -/
theorem handlerOrders_validation_gate_witness :
    (handlerOrders ⟨"", "", []⟩ (fun _ => false) ⟨none, none⟩
      ⟨.undefined, .str "p", .str "a", .str "c", .str "h", .num (.finite 1), .undefined⟩).response =
      .badRequest400 :=
  ((handlerOrders_validation_gate ⟨"", "", []⟩ (fun _ => false) ⟨none, none⟩
      ⟨.undefined, .str "p", .str "a", .str "c", .str "h", .num (.finite 1), .undefined⟩).1.mpr
    (by decide)).1

/-- Counterexample to claim C9: a body whose five presence fields are truthy
and whose quantity is a number passes validation, but when a variantId is
supplied and `name` is not a string the handler throws while building the
shipping address (`name.split` is not a function) and responds 500 without
making any upstream call — so such requests do not always proceed to an
upstream call. -/
theorem ordersTruthiness_no_upstream_call :
    ordersValidationFails
      ⟨.num (.finite 5), .str "p", .str "a", .str "c", .str "h", .num (.finite 1),
        .str "gid://shopify/ProductVariant/1"⟩ = false ∧
    (handlerOrders ⟨"", "", []⟩ (fun _ => false) ⟨none, none⟩
      ⟨.num (.finite 5), .str "p", .str "a", .str "c", .str "h", .num (.finite 1),
        .str "gid://shopify/ProductVariant/1"⟩).storefrontCalled = false ∧
    (handlerOrders ⟨"", "", []⟩ (fun _ => false) ⟨none, none⟩
      ⟨.num (.finite 5), .str "p", .str "a", .str "c", .str "h", .num (.finite 1),
        .str "gid://shopify/ProductVariant/1"⟩).draftInput = none ∧
    (handlerOrders ⟨"", "", []⟩ (fun _ => false) ⟨none, none⟩
      ⟨.num (.finite 5), .str "p", .str "a", .str "c", .str "h", .num (.finite 1),
        .str "gid://shopify/ProductVariant/1"⟩).response = .typeError500 :=
  ⟨by decide, rfl, rfl, rfl⟩

/-- Claim C9, amended: the validation checks only truthiness for name, phone,
address, city and productHandle and only typeof for quantity, so any body with
truthy presence fields and a number-typed quantity (including 0, negative
numbers and NaN) passes validation; it then proceeds to an upstream call,
except that when a variantId is supplied and name is not a string the
shipping-address construction throws, yielding 500 with no upstream call
(when no variantId is supplied the storefront call is made first, regardless
of the fields' types). -/
theorem handlerOrders_truthiness_gate (cfg : WAConfig) (sendOk : String → Bool)
    (env : UpstreamEnv) (b : OrderBody)
    (h1 : truthy b.name = true) (h2 : truthy b.phone = true)
    (h3 : truthy b.address = true) (h4 : truthy b.city = true)
    (h5 : truthy b.productHandle = true) (h6 : isNumberType b.quantity = true) :
    ordersValidationFails b = false ∧
    (handlerOrders cfg sendOk env b).response ≠ .badRequest400 ∧
    (truthy b.variantId = false → (handlerOrders cfg sendOk env b).storefrontCalled = true) ∧
    (truthy b.variantId = true →
      ((∀ s, b.name ≠ .str s) →
        (handlerOrders cfg sendOk env b).storefrontCalled = false ∧
        (handlerOrders cfg sendOk env b).draftInput = none ∧
        (handlerOrders cfg sendOk env b).response = .typeError500) ∧
      (∀ s, b.name = .str s → (handlerOrders cfg sendOk env b).draftInput.isSome = true)) := by
  have hval : ordersValidationFails b = false := by
    simp [ordersValidationFails, h1, h2, h3, h4, h5, h6]
  refine ⟨hval, handlerOrders_response_ne_400 cfg sendOk env b hval, ?_, ?_⟩
  · intro hvar
    unfold handlerOrders
    simp only [hval, Bool.false_eq_true, if_false, hvar, if_false]
    split
    · rfl
    · split
      · rfl
      · exact ordersAfterVariant_storefrontCalled cfg sendOk env b _ true
  · intro hvar
    rw [handlerOrders_variant_given cfg sendOk env b hval hvar]
    constructor
    · intro hns
      have hnone := buildDraftInput_none b b.variantId hns
      rw [ordersAfterVariant_typeError cfg sendOk env b b.variantId false hnone]
      exact ⟨rfl, rfl, rfl⟩
    · intro s hs
      obtain ⟨inp, hinp⟩ := buildDraftInput_isSome b b.variantId s hs
      rw [ordersAfterVariant_draftInput, hinp]
      rfl

/-- Witness for the amended C9: a body with a NaN-free zero quantity and all
truthy string fields passes the gate and, lacking a variantId, reaches the
storefront call. -/
theorem handlerOrders_truthiness_gate_witness :
    ordersValidationFails
      ⟨.str "Ada", .str "p", .str "a", .str "c", .str "h", .num (.finite 0), .undefined⟩ = false ∧
    (handlerOrders ⟨"", "", []⟩ (fun _ => false) ⟨none, none⟩
      ⟨.str "Ada", .str "p", .str "a", .str "c", .str "h", .num (.finite 0), .undefined⟩).storefrontCalled =
      true :=
  ⟨(handlerOrders_truthiness_gate ⟨"", "", []⟩ (fun _ => false) ⟨none, none⟩
      ⟨.str "Ada", .str "p", .str "a", .str "c", .str "h", .num (.finite 0), .undefined⟩
      (by decide) (by decide) (by decide) (by decide) (by decide) (by decide)).1,
   (handlerOrders_truthiness_gate ⟨"", "", []⟩ (fun _ => false) ⟨none, none⟩
      ⟨.str "Ada", .str "p", .str "a", .str "c", .str "h", .num (.finite 0), .undefined⟩
      (by decide) (by decide) (by decide) (by decide) (by decide) (by decide)).2.2.1 rfl⟩

/-- Counterexample to claim C2: a POST /api/orders body carrying the bare
numeric variantId "123" has that exact unqualified string placed in the
upstream draft-order line item — it is not normalized to the qualified form
the stock endpoint would produce. -/
theorem ordersVariantId_not_normalized :
    ((handlerOrders ⟨"", "", []⟩ (fun _ => false)
        ⟨none, some ⟨some ⟨"gid://shopify/DraftOrder/1", "https://inv", "#D1"⟩, some []⟩⟩
        ⟨.str "Ada Lovelace", .str "p", .str "a", .str "c", .str "h", .num (.finite 1),
          .str "123"⟩).draftInput.map (fun i => i.lineItems.map LineItem.variantId)) =
      some [.str "123"] ∧
    "123" ≠ stockGid "123" ∧
    jsStartsWith "123" "gid://" = false :=
  ⟨rfl, by decide, by decide⟩

/-- Claim C2, amended: the stock endpoint normalizes a bare (non-gid://)
path parameter into the qualified form before the upstream call, but
POST /api/orders does not normalize: a supplied truthy variantId is placed in
the upstream line item exactly as it arrived. -/
theorem variantId_normalization_scope (cfg : WAConfig) (sendOk : String → Bool)
    (env : UpstreamEnv) (b : OrderBody) :
    (∀ vid : String, jsStartsWith vid "gid://" = false →
      stockGid vid = "gid://shopify/ProductVariant/" ++ vid) ∧
    (truthy b.variantId = true → ∀ inp,
      (handlerOrders cfg sendOk env b).draftInput = some inp →
      inp.lineItems = [{ variantId := b.variantId, quantity := b.quantity }]) := by
  constructor
  · intro vid hv
    simp [stockGid, hv]
  · intro hvar inp hinp
    by_cases hval : ordersValidationFails b = true
    · rw [handlerOrders_validation_fails cfg sendOk env b hval] at hinp
      cases hinp
    · rw [handlerOrders_variant_given cfg sendOk env b (Bool.not_eq_true _ ▸ hval) hvar,
        ordersAfterVariant_draftInput] at hinp
      exact buildDraftInput_lineItems b b.variantId inp hinp

/-- Witness for the amended C2: a bare "77" supplied as the order's variantId
reaches the line item unchanged. -/
theorem variantId_normalization_scope_witness :
    ∀ inp, (handlerOrders ⟨"", "", []⟩ (fun _ => false)
        ⟨none, some ⟨some ⟨"gid://shopify/DraftOrder/1", "https://inv", "#D1"⟩, some []⟩⟩
        ⟨.str "Ada", .str "p", .str "a", .str "c", .str "h", .num (.finite 2),
          .str "77"⟩).draftInput = some inp →
      inp.lineItems = [{ variantId := .str "77", quantity := .num (.finite 2) }] :=
  (variantId_normalization_scope ⟨"", "", []⟩ (fun _ => false)
      ⟨none, some ⟨some ⟨"gid://shopify/DraftOrder/1", "https://inv", "#D1"⟩, some []⟩⟩
      ⟨.str "Ada", .str "p", .str "a", .str "c", .str "h", .num (.finite 2), .str "77"⟩).2
    (by decide)

/-- Claim C4: notification is best-effort and isolated — if the messaging
credential, sender identity, or recipient list is empty the notify step is
skipped entirely; every configured recipient is attempted regardless of other
recipients' send failures; and after a successful draft-order creation with
id X and invoiceUrl U, the endpoint responds 201 with body
{ok: true, draftOrderId: X, invoiceUrl: U} even if every send fails. -/
theorem ordersNotify_best_effort (cfg : WAConfig) (sendOk : String → Bool)
    (env : UpstreamEnv) (b : OrderBody) (nm : String) (d : DraftOrder)
    (ue : Option (List UserError))
    (hval : ordersValidationFails b = false)
    (hvar : truthy b.variantId = true)
    (hname : b.name = .str nm)
    (henv : env.draftOrderCreate = some ⟨some d, ue⟩) :
    ((cfg.waToken = "" ∨ cfg.waPhoneId = "" ∨ cfg.waRecipients = []) →
      (handlerOrders cfg sendOk env b).notifySends = []) ∧
    ((handlerOrders cfg sendOk env b).notifySends.map Prod.fst =
      if cfg.waToken ≠ "" ∧ cfg.waPhoneId ≠ "" ∧ 0 < cfg.waRecipients.length
      then cfg.waRecipients else []) ∧
    (handlerOrders cfg sendOk env b).response = .created201 d.id d.invoiceUrl ∧
    (handlerOrders cfg (fun _ => false) env b).response = .created201 d.id d.invoiceUrl ∧
    OrdersResponse.status (.created201 d.id d.invoiceUrl) = 201 ∧
    OrdersResponse.body (.created201 d.id d.invoiceUrl) =
      .obj [("ok", .bool true), ("draftOrderId", .str d.id), ("invoiceUrl", .str d.invoiceUrl)] := by
  obtain ⟨inp, hinp⟩ := buildDraftInput_isSome b b.variantId nm hname
  have hrun : ∀ so : String → Bool, handlerOrders cfg so env b =
      { storefrontCalled := false, draftInput := some inp
        notifySends := notifyStep cfg so
        response := .created201 d.id d.invoiceUrl } := by
    intro so
    rw [handlerOrders_variant_given cfg so env b hval hvar]
    exact ordersAfterVariant_created cfg so env b b.variantId false inp d ue hinp henv
  refine ⟨?_, ?_, ?_, ?_, rfl, rfl⟩
  · intro hskip
    rw [hrun sendOk]
    exact notifyStep_skip cfg sendOk hskip
  · rw [hrun sendOk]
    exact notifyStep_map_fst cfg sendOk
  · rw [hrun sendOk]
  · rw [hrun (fun _ => false)]

/-- Witness for C4: with one configured recipient whose send fails, the order
response is still the 201 created response. -/
theorem ordersNotify_best_effort_witness :
    (handlerOrders ⟨"tok", "pid", ["+96176851935"]⟩ (fun _ => false)
      ⟨none, some ⟨some ⟨"X", "U", "#D1"⟩, some []⟩⟩
      ⟨.str "Ada", .str "p", .str "a", .str "c", .str "h", .num (.finite 1),
        .str "gid://shopify/ProductVariant/1"⟩).response = .created201 "X" "U" :=
  (ordersNotify_best_effort ⟨"tok", "pid", ["+96176851935"]⟩ (fun _ => false)
      ⟨none, some ⟨some ⟨"X", "U", "#D1"⟩, some []⟩⟩
      ⟨.str "Ada", .str "p", .str "a", .str "c", .str "h", .num (.finite 1),
        .str "gid://shopify/ProductVariant/1"⟩
      "Ada" ⟨"X", "U", "#D1"⟩ (some [])
      (by decide) (by decide) rfl rfl).2.2.1

/-- Claim C8: the 500 {error: "Draft order failed", details: userErrors}
response is decided solely by the absence of a draftOrder object in the
mutation payload; when a draft order is present the handler responds 201 and
any accompanying userErrors are discarded. -/
theorem ordersDraftFailure_sole_criterion (cfg : WAConfig) (sendOk : String → Bool)
    (env : UpstreamEnv) (b : OrderBody) (nm : String) (payload : DraftOrderCreatePayload)
    (hval : ordersValidationFails b = false)
    (hvar : truthy b.variantId = true)
    (hname : b.name = .str nm)
    (henv : env.draftOrderCreate = some payload) :
    ((handlerOrders cfg sendOk env b).response = .draftFailed500 payload.userErrors ↔
      payload.draftOrder = none) ∧
    (∀ d, payload.draftOrder = some d →
      (handlerOrders cfg sendOk env b).response = .created201 d.id d.invoiceUrl) ∧
    OrdersResponse.status (.draftFailed500 payload.userErrors) = 500 ∧
    OrdersResponse.body (.draftFailed500 payload.userErrors) =
      .obj [("error", .str "Draft order failed"),
            ("details", match payload.userErrors with
              | none => .undefined
              | some es => .arr (es.map fun e =>
                  .obj [("field", .str e.field), ("message", .str e.message)]))] := by
  obtain ⟨inp, hinp⟩ := buildDraftInput_isSome b b.variantId nm hname
  rw [handlerOrders_variant_given cfg sendOk env b hval hvar]
  obtain ⟨draftOpt, ueOpt⟩ := payload
  cases draftOpt with
  | none =>
    rw [ordersAfterVariant_draftFailed cfg sendOk env b b.variantId false inp ueOpt hinp henv]
    refine ⟨⟨fun _ => rfl, fun _ => rfl⟩, ?_, rfl, rfl⟩
    intro d hd
    cases hd
  | some d =>
    rw [ordersAfterVariant_created cfg sendOk env b b.variantId false inp d ueOpt hinp henv]
    refine ⟨⟨fun hcontra => ?_, fun hcontra => ?_⟩, ?_, rfl, rfl⟩
    · cases hcontra
    · cases hcontra
    · intro d' hd'
      cases hd'
      rfl

/-- Witness for C8: a payload with a present draft order and a non-empty
userErrors array still yields the 201 created response. -/
theorem ordersDraftFailure_sole_criterion_witness :
    (handlerOrders ⟨"", "", []⟩ (fun _ => false)
      ⟨none, some ⟨some ⟨"X", "U", "#D1"⟩, some [⟨"quantity", "too large"⟩]⟩⟩
      ⟨.str "Ada", .str "p", .str "a", .str "c", .str "h", .num (.finite 1),
        .str "gid://shopify/ProductVariant/1"⟩).response = .created201 "X" "U" :=
  ((ordersDraftFailure_sole_criterion ⟨"", "", []⟩ (fun _ => false)
      ⟨none, some ⟨some ⟨"X", "U", "#D1"⟩, some [⟨"quantity", "too large"⟩]⟩⟩
      ⟨.str "Ada", .str "p", .str "a", .str "c", .str "h", .num (.finite 1),
        .str "gid://shopify/ProductVariant/1"⟩
      "Ada" ⟨some ⟨"X", "U", "#D1"⟩, some [⟨"quantity", "too large"⟩]⟩
      (by decide) (by decide) rfl rfl).2.1) ⟨"X", "U", "#D1"⟩ rfl

end ClickDeal
